import Mathlib

/-!
# Foldproof — verification of the panel-layout calculator, UV mapper and
  fold-progress animation engine

Shallow embedding of the core modules of the Foldproof repository:

* `foldCalculator` (panel layout): `calculateBiFold`, `calculateTriFoldZ`,
  `calculateTriFoldRoll`, `calculateGateFold`, `calculatePanels`;
* `foldMesh` (UV assignment): `calculatePanelUVs`, `applyUVs`,
  `flipUVsHorizontally`;
* `animations` (fold-progress engine): `easeInOutCubic`, `applyBiFold`,
  `applyTriFoldZ`, `applyTriFoldRoll`, `applyGateFold`, `applyFoldProgress`,
  `setFoldProgress`, `getFoldProgress`.

Modelling conventions:

* JavaScript numbers are modelled as rationals (`ℚ`); every constant the
  embedded code manipulates is a decimal literal, so this is exact.
* Rotation fields (`rotation.x`, `rotation.y`) are stored **in units of π
  radians**: every rotation the source writes is a rational multiple of π
  (`foldAngle = progress * Math.PI`, `BASE_ROTATION_X = Math.PI / 2`), so the
  embedded field holds the rational coefficient.  Position fields are plain
  inches (scene units), exactly as in the source.
* `Math.sin(progress * Math.PI)` (used only by the gate-fold position bumps)
  is transcendental; the embedding is parametrised by an arbitrary function
  `sinPi : ℚ → ℚ` interpreting `t ↦ sin(t·π)`.  No theorem below depends on
  its values.
* The module-level mutable state of the source (`currentFoldType`,
  `currentOrientation`, `currentFoldProgress`, `panelMeshes`) is passed
  explicitly: fold type and orientation are the `String`s the source stores,
  the mesh array is a `List Pivot`, and the animation module state is an
  `AnimState` record.
-/

namespace Foldproof

/-- A paper size `{ width, height }` in inches (`sizeParser` output). -/
structure Size where
  width : ℚ
  height : ℚ
deriving Repr, DecidableEq

/-- One entry of the `FOLD_TYPES` table of `foldCalculator`. -/
structure FoldInfo where
  name : String
  panelCount : ℕ
  description : String
deriving Repr, DecidableEq

/-- The `FOLD_TYPES` lookup table; `FOLD_TYPES[id]` is `undefined` (here
`none`) for an unrecognised id. -/
def FOLD_TYPES (id : String) : Option FoldInfo :=
  if id = "bi-fold" then
    some ⟨"Bi-Fold", 2, "2 equal panels, folds in half"⟩
  else if id = "tri-fold-z" then
    some ⟨"Tri-Fold Z-Fold", 3, "3 panels, accordion style (Z-shape)"⟩
  else if id = "tri-fold-roll" then
    some ⟨"Tri-Fold Roll", 3, "3 panels, one folds in first (letter fold)"⟩
  else if id = "gate-fold" then
    some ⟨"Gate Fold", 3, "2 outer panels fold to center"⟩
  else
    none

/-- One panel record as produced by the `calculate*Fold` functions of
`foldCalculator`.  `foldAngle` is stored in units of π radians
(`Math.PI ↦ 1`).  `parentIndex` and `nestOffset` are `Option`s because the
source object literals include those properties only on some panels. -/
structure Panel where
  index : ℕ
  width : ℚ
  height : ℚ
  offsetX : ℚ
  pivotEdge : String
  foldDirection : ℤ
  foldAngle : ℚ
  isBase : Bool
  parentIndex : Option ℕ := none
  nestOffset : Option ℚ := none
deriving Repr, DecidableEq

/-- `calculateBiFold(totalLength, panelHeight)` of `foldCalculator`. -/
def calculateBiFold (totalLength panelHeight : ℚ) : List Panel :=
  let panelWidth := totalLength / 2
  [ { index := 0, width := panelWidth, height := panelHeight, offsetX := 0,
      pivotEdge := "right", foldDirection := 1, foldAngle := 1, isBase := true },
    { index := 1, width := panelWidth, height := panelHeight, offsetX := panelWidth,
      pivotEdge := "left", foldDirection := -1, foldAngle := 1, isBase := false } ]

/-- `calculateTriFoldZ(totalLength, panelHeight)` of `foldCalculator`. -/
def calculateTriFoldZ (totalLength panelHeight : ℚ) : List Panel :=
  let panelWidth := totalLength / 3
  [ { index := 0, width := panelWidth, height := panelHeight, offsetX := 0,
      pivotEdge := "right", foldDirection := 0, foldAngle := 0, isBase := true },
    { index := 1, width := panelWidth, height := panelHeight, offsetX := panelWidth,
      pivotEdge := "left", foldDirection := -1, foldAngle := 1, isBase := false,
      parentIndex := some 0 },
    { index := 2, width := panelWidth, height := panelHeight, offsetX := panelWidth * 2,
      pivotEdge := "left", foldDirection := 1, foldAngle := 1, isBase := false,
      parentIndex := some 1 } ]

/-- `calculateTriFoldRoll(totalLength, panelHeight)` of `foldCalculator`:
inner panel `L/3 - 0.1`, outer panel `L/3 + 0.05`, center panel the exact
remainder; the innermost panel carries `nestOffset = 0.02`. -/
def calculateTriFoldRoll (totalLength panelHeight : ℚ) : List Panel :=
  let innerPanelWidth := totalLength / 3 - 1/10
  let outerPanelWidth := totalLength / 3 + 1/20
  let centerPanelWidth := totalLength - innerPanelWidth - outerPanelWidth
  [ { index := 0, width := outerPanelWidth, height := panelHeight, offsetX := 0,
      pivotEdge := "right", foldDirection := 0, foldAngle := 0, isBase := true },
    { index := 1, width := centerPanelWidth, height := panelHeight,
      offsetX := outerPanelWidth,
      pivotEdge := "left", foldDirection := -1, foldAngle := 1, isBase := false,
      parentIndex := some 0 },
    { index := 2, width := innerPanelWidth, height := panelHeight,
      offsetX := outerPanelWidth + centerPanelWidth,
      pivotEdge := "left", foldDirection := -1, foldAngle := 1, isBase := false,
      parentIndex := some 1, nestOffset := some (1/50) } ]

/-- `calculateGateFold(totalLength, panelHeight)` of `foldCalculator`. -/
def calculateGateFold (totalLength panelHeight : ℚ) : List Panel :=
  let outerPanelWidth := totalLength / 4
  let centerPanelWidth := totalLength / 2
  [ { index := 0, width := outerPanelWidth, height := panelHeight, offsetX := 0,
      pivotEdge := "right", foldDirection := -1, foldAngle := 1, isBase := false,
      parentIndex := some 1 },
    { index := 1, width := centerPanelWidth, height := panelHeight,
      offsetX := outerPanelWidth,
      pivotEdge := "center", foldDirection := 0, foldAngle := 0, isBase := true },
    { index := 2, width := outerPanelWidth, height := panelHeight,
      offsetX := outerPanelWidth + centerPanelWidth,
      pivotEdge := "left", foldDirection := -1, foldAngle := 1, isBase := false,
      parentIndex := some 1 } ]

/-- The aggregate object returned by `calculatePanels`. -/
structure PanelConfig where
  foldType : String
  orientation : String
  foldInfo : Option FoldInfo
  panels : List Panel
  totalWidth : ℚ
  totalHeight : ℚ
  isVertical : Bool
deriving Repr, DecidableEq

/-- `calculatePanels(size)` of `foldCalculator`, with the module state
`currentFoldType` / `currentOrientation` passed explicitly.  The `switch`
falls through to `calculateBiFold` for an unrecognised fold type id. -/
def calculatePanels (currentFoldType currentOrientation : String)
    (size : Size) : PanelConfig :=
  let foldType := FOLD_TYPES currentFoldType
  let isVertical := currentOrientation = "vertical"
  let totalLength := if isVertical then size.width else size.height
  let panelHeight := if isVertical then size.height else size.width
  let panels :=
    if currentFoldType = "bi-fold" then calculateBiFold totalLength panelHeight
    else if currentFoldType = "tri-fold-z" then calculateTriFoldZ totalLength panelHeight
    else if currentFoldType = "tri-fold-roll" then calculateTriFoldRoll totalLength panelHeight
    else if currentFoldType = "gate-fold" then calculateGateFold totalLength panelHeight
    else calculateBiFold totalLength panelHeight
  { foldType := currentFoldType
    orientation := currentOrientation
    foldInfo := foldType
    panels := panels
    totalWidth := size.width
    totalHeight := size.height
    isVertical := isVertical }

/-- `offsetsFrom acc ps` holds when each panel's `offsetX` equals `acc` plus
the widths of all panels before it in `ps` — i.e. the offsets are the
cumulative sums of the widths starting at `acc`. -/
def offsetsFrom (acc : ℚ) : List Panel → Prop
  | [] => True
  | p :: ps => p.offsetX = acc ∧ offsetsFrom (acc + p.width) ps

instance : ∀ (acc : ℚ) (ps : List Panel), Decidable (offsetsFrom acc ps)
  | _, [] => .isTrue trivial
  | acc, p :: ps =>
    have : Decidable (offsetsFrom (acc + p.width) ps) := instDecidableOffsetsFrom _ _
    instDecidableAnd

/-! ## UV assignment (`foldMesh` module) -/

/-- The UV rectangle object returned by `calculatePanelUVs`. -/
structure UVRect where
  uStart : ℚ
  uEnd : ℚ
  vStart : ℚ
  vEnd : ℚ
deriving Repr, DecidableEq

/-- `calculatePanelUVs(panel, panelConfig)` of `foldMesh`: for a vertical
fold the panel's strip is cut from the U axis, for a horizontal fold from
the V axis; the complementary axis always spans `0 → 1`. -/
def calculatePanelUVs (panel : Panel) (panelConfig : PanelConfig) : UVRect :=
  let isHorizontalFold := !panelConfig.isVertical
  if isHorizontalFold then
    let totalHeight := panelConfig.totalHeight
    let vStart := panel.offsetX / totalHeight
    let vEnd := (panel.offsetX + panel.width) / totalHeight
    { uStart := 0, uEnd := 1, vStart := vStart, vEnd := vEnd }
  else
    let totalWidth := panelConfig.totalWidth
    let uStart := panel.offsetX / totalWidth
    let uEnd := (panel.offsetX + panel.width) / totalWidth
    { uStart := uStart, uEnd := uEnd, vStart := 0, vEnd := 1 }

/-- The four UV corners written by `applyUVs` into the plane geometry's
`uv` attribute (`bl` = array slots 0–1, `br` = 2–3, `tl` = 4–5,
`tr` = 6–7). -/
structure UVCorners where
  bl : ℚ × ℚ
  br : ℚ × ℚ
  tl : ℚ × ℚ
  tr : ℚ × ℚ
deriving Repr, DecidableEq

/-- `applyUVs(geometry, uvs)` of `foldMesh`, as the corner assignment it
writes: bottom-left `(uStart, vStart)`, bottom-right `(uEnd, vStart)`,
top-left `(uStart, vEnd)`, top-right `(uEnd, vEnd)`. -/
def applyUVs (uvs : UVRect) : UVCorners :=
  { bl := (uvs.uStart, uvs.vStart)
    br := (uvs.uEnd, uvs.vStart)
    tl := (uvs.uStart, uvs.vEnd)
    tr := (uvs.uEnd, uvs.vEnd) }

/-- `flipUVsHorizontally(uvs)` of `foldMesh`: swaps `uStart` and `uEnd`,
leaving the V coordinates unchanged (used for the back-face mesh). -/
def flipUVsHorizontally (uvs : UVRect) : UVRect :=
  { uStart := uvs.uEnd, uEnd := uvs.uStart, vStart := uvs.vStart, vEnd := uvs.vEnd }

/-- Horizontal mirror of a corner assignment: the left and right columns of
corners are exchanged. -/
def mirrorCornersLR (c : UVCorners) : UVCorners :=
  { bl := c.br, br := c.bl, tl := c.tr, tr := c.tl }

/-- `tilesFrom acc ivs` holds when the intervals `ivs` chain without gap or
overlap starting at `acc` and ending at `1`: each interval starts where the
previous one ended, and the last one ends at `1`. -/
def tilesFrom (acc : ℚ) : List (ℚ × ℚ) → Prop
  | [] => acc = 1
  | (s, e) :: rest => s = acc ∧ tilesFrom e rest

instance : ∀ (acc : ℚ) (ivs : List (ℚ × ℚ)), Decidable (tilesFrom acc ivs)
  | _, [] => inferInstanceAs (Decidable (_ = _))
  | acc, (_, e) :: rest =>
    have : Decidable (tilesFrom e rest) := instDecidableTilesFrom _ _
    instDecidableAnd

/-- The fold-axis interval of a panel's front-face UV rectangle: the U
interval for a vertical fold, the V interval for a horizontal fold. -/
def foldAxisInterval (cfg : PanelConfig) (panel : Panel) : ℚ × ℚ :=
  let uv := calculatePanelUVs panel cfg
  if cfg.isVertical then (uv.uStart, uv.uEnd) else (uv.vStart, uv.vEnd)

/-! ## Fold animation engine (`animations` module)

Rotation fields are in units of π radians; `sinPi t` interprets
`Math.sin(t * Math.PI)`. -/

/-- `MAX_FOLD_PROGRESS = 0.8` of `animations`. -/
def MAX_FOLD_PROGRESS : ℚ := 4/5

/-- `PANEL_Z_OFFSET = 0.05` of `animations`. -/
def PANEL_Z_OFFSET : ℚ := 1/20

/-- `BASE_ROTATION_X = Math.PI / 2` of `animations`, in units of π. -/
def BASE_ROTATION_X : ℚ := 1/2

/-- `easeInOutCubic(t)` of `animations`. -/
def easeInOutCubic (t : ℚ) : ℚ :=
  if t < 1/2 then 4 * t * t * t
  else 1 - (-2 * t + 2) ^ 3 / 2

/-- The mutable fields of one panel pivot that the animation engine touches
(`pivot.rotation.x/.y` in units of π, `pivot.position.y/.z` in scene units)
together with the panel record stored in `pivot.userData.panelConfig`. -/
structure Pivot where
  rotx : ℚ := 0
  roty : ℚ := 0
  posy : ℚ := 0
  posz : ℚ := 0
  panelCfg : Option Panel := none
deriving Repr, DecidableEq

/-- `applyBiFold(panelMeshes, progress, isVertical)` of `animations`:
panel 1 rotates by `progress·π` about Y (vertical) or about X on top of the
base rotation (horizontal) and is lifted by `progress · PANEL_Z_OFFSET`. -/
def applyBiFold (panelMeshes : List Pivot) (progress : ℚ) (isVertical : Bool) :
    List Pivot :=
  match panelMeshes with
  | m0 :: m1 :: rest =>
    let m1' :=
      if isVertical then
        { m1 with roty := progress, posy := progress * PANEL_Z_OFFSET }
      else
        { m1 with rotx := BASE_ROTATION_X + progress,
                  posy := progress * PANEL_Z_OFFSET }
    m0 :: m1' :: rest
  | _ => panelMeshes

/-- `applyTriFoldZ(panelMeshes, progress, isVertical)` of `animations`:
panel 1 folds backward (`-progress·π`) and panel 2 forward
(`+progress·π`), with staggered height offsets. -/
def applyTriFoldZ (panelMeshes : List Pivot) (progress : ℚ) (isVertical : Bool) :
    List Pivot :=
  match panelMeshes with
  | m0 :: m1 :: m2 :: rest =>
    let m1' :=
      if isVertical then
        { m1 with roty := -progress, posy := progress * PANEL_Z_OFFSET }
      else
        { m1 with rotx := -progress, posy := progress * PANEL_Z_OFFSET }
    let m2' :=
      if isVertical then
        { m2 with roty := progress, posy := progress * PANEL_Z_OFFSET * 2 }
      else
        { m2 with rotx := progress, posy := progress * PANEL_Z_OFFSET * 2 }
    m0 :: m1' :: m2' :: rest
  | _ => panelMeshes

/-- `applyTriFoldRoll(panelMeshes, progress, isVertical)` of `animations`:
staged motion — panel 2 (inner) is driven by local progress
`min(1, progress/0.8)`, panel 1 by `max(0, (progress-0.2)/0.8)`, each eased
again by `easeInOutCubic`; panel 2's lift adds its `nestOffset`. -/
def applyTriFoldRoll (panelMeshes : List Pivot) (progress : ℚ)
    (isVertical : Bool) : List Pivot :=
  match panelMeshes with
  | m0 :: m1 :: m2 :: rest =>
    let panel1Progress := max 0 ((progress - 1/5) / (4/5))
    let panel2Progress := min 1 (progress / (4/5))
    let easedPanel1 := easeInOutCubic panel1Progress
    let easedPanel2 := easeInOutCubic panel2Progress
    let nestOffset := ((m2.panelCfg.bind Panel.nestOffset).getD 0)
    let m2' :=
      if isVertical then
        { m2 with roty := -easedPanel2,
                  posy := easedPanel2 * (PANEL_Z_OFFSET + nestOffset) }
      else
        { m2 with rotx := -easedPanel2,
                  posy := easedPanel2 * (PANEL_Z_OFFSET + nestOffset) }
    let m1' :=
      if isVertical then
        { m1 with roty := -easedPanel1,
                  posy := if progress > 0 then
                            PANEL_Z_OFFSET * 2 * easedPanel1 + easedPanel1 * PANEL_Z_OFFSET
                          else 0 }
      else
        { m1 with rotx := -easedPanel1,
                  posy := if progress > 0 then
                            PANEL_Z_OFFSET * 2 * easedPanel1 + easedPanel1 * PANEL_Z_OFFSET
                          else 0 }
    m0 :: m1' :: m2' :: rest
  | _ => panelMeshes

/-- `applyGateFold(panelMeshes, progress, isVertical)` of `animations`:
panels 0 and 2 rotate inward (`-progress·π` and `+progress·π`) with
sinusoidal anti-clipping bumps on their positions. -/
def applyGateFold (sinPi : ℚ → ℚ) (panelMeshes : List Pivot) (progress : ℚ)
    (isVertical : Bool) : List Pivot :=
  match panelMeshes with
  | m0 :: m1 :: m2 :: rest =>
    let m0' :=
      if isVertical then
        let yCurve := sinPi progress * (1/5)
        { m0 with roty := -progress,
                  posy := progress * PANEL_Z_OFFSET + yCurve, posz := 0 }
      else
        let yCurve := sinPi progress * PANEL_Z_OFFSET
        { m0 with rotx := -progress,
                  posz := -(progress * PANEL_Z_OFFSET + yCurve) }
    let m2' :=
      if isVertical then
        let yCurve := sinPi progress * (3/10)
        { m2 with roty := progress,
                  posy := progress * PANEL_Z_OFFSET * (5/2) + yCurve, posz := 0 }
      else
        let yCurve := sinPi progress * (2/25)
        { m2 with rotx := progress,
                  posz := -(progress * PANEL_Z_OFFSET * (21/10) + yCurve) }
    m0' :: m1 :: m2' :: rest
  | _ => panelMeshes

/-- `applyFoldProgress(progress)` of `animations`, with the module state
(fold type, orientation, mesh list) passed explicitly: the slider progress
is capped at `MAX_FOLD_PROGRESS`, eased, and dispatched to the per-topology
apply function; an empty mesh list, and an unrecognised fold type
(the `switch` has no default), leave the meshes untouched. -/
def applyFoldProgress (sinPi : ℚ → ℚ) (foldType orientation : String)
    (progress : ℚ) (panelMeshes : List Pivot) : List Pivot :=
  if panelMeshes = [] then panelMeshes
  else
    let isVertical := orientation = "vertical"
    let cappedProgress := progress * MAX_FOLD_PROGRESS
    let easedProgress := easeInOutCubic cappedProgress
    if foldType = "bi-fold" then applyBiFold panelMeshes easedProgress isVertical
    else if foldType = "tri-fold-z" then applyTriFoldZ panelMeshes easedProgress isVertical
    else if foldType = "tri-fold-roll" then applyTriFoldRoll panelMeshes easedProgress isVertical
    else if foldType = "gate-fold" then applyGateFold sinPi panelMeshes easedProgress isVertical
    else panelMeshes

/-- The animation module state read and written by `setFoldProgress` /
`getFoldProgress` (`currentFoldProgress` plus the mesh list the apply step
mutates). -/
structure AnimState where
  currentFoldProgress : ℚ
  panelMeshes : List Pivot
deriving Repr, DecidableEq

/-- `setFoldProgress(progress)` of `animations`: stores
`Math.max(0, Math.min(1, progress))` and applies it to the meshes. -/
def setFoldProgress (sinPi : ℚ → ℚ) (foldType orientation : String)
    (progress : ℚ) (s : AnimState) : AnimState :=
  let clamped := max 0 (min 1 progress)
  { currentFoldProgress := clamped
    panelMeshes := applyFoldProgress sinPi foldType orientation clamped s.panelMeshes }

/-- `getFoldProgress()` of `animations`. -/
def getFoldProgress (s : AnimState) : ℚ :=
  s.currentFoldProgress

/-! ## Claim theorems -/

/-- C1: for every fold type id among `bi-fold`, `tri-fold-z`,
`tri-fold-roll`, `gate-fold` and every size with positive width and height,
the panels returned by `calculatePanels` partition the fold-axis length
(`size.width` for vertical orientation, `size.height` otherwise): the first
panel's `offsetX` is `0`, each panel's `offsetX` is the sum of the widths of
all earlier panels, and the panel widths sum exactly to the fold-axis
length (the roll fold's `δ` adjustments cancel). -/
theorem calculatePanels_partitions_foldLength (ft orient : String) (w h : ℚ)
    (hft : ft = "bi-fold" ∨ ft = "tri-fold-z" ∨ ft = "tri-fold-roll" ∨ ft = "gate-fold")
    (hw : 0 < w) (hh : 0 < h) :
    ((calculatePanels ft orient ⟨w, h⟩).panels.map Panel.width).sum
        = (if orient = "vertical" then w else h) ∧
      offsetsFrom 0 (calculatePanels ft orient ⟨w, h⟩).panels := by
  rcases hft with h1 | h1 | h1 | h1 <;> subst h1 <;>
    by_cases ho : orient = "vertical" <;>
    simp [calculatePanels, calculateBiFold, calculateTriFoldZ,
      calculateTriFoldRoll, calculateGateFold, offsetsFrom, ho] <;>
    (repeat' apply And.intro) <;>
    first
      | ring
      | trivial

/-- Witness for C1 at `ft = "bi-fold"`, `orient = "vertical"`,
`size = {9, 11}`. -/
theorem calculatePanels_partitions_foldLength_witness :
    ("bi-fold" = "bi-fold" ∨ "bi-fold" = "tri-fold-z" ∨
        "bi-fold" = "tri-fold-roll" ∨ "bi-fold" = "gate-fold") ∧
      (0 : ℚ) < 9 ∧ (0 : ℚ) < 11 ∧
      (((calculatePanels "bi-fold" "vertical" ⟨9, 11⟩).panels.map Panel.width).sum
          = (if "vertical" = "vertical" then (9 : ℚ) else 11) ∧
        offsetsFrom 0 (calculatePanels "bi-fold" "vertical" ⟨9, 11⟩).panels) :=
  ⟨Or.inl rfl, by decide, by decide,
    calculatePanels_partitions_foldLength "bi-fold" "vertical" 9 11
      (Or.inl rfl) (by decide) (by decide)⟩

/-- C2 (counterexample): in the bi-fold configuration for
`size = {8.5, 11}`, vertical, the code gives panel 0 `foldDirection = 1`
(not `0` as claimed) and gives panel 1 no `parentIndex` at all (not
`parentIndex = 0` as claimed). -/
theorem biFold_direction_parent_counterexample :
    ((calculatePanels "bi-fold" "vertical" ⟨17/2, 11⟩).panels.map Panel.foldDirection
        = [1, -1] ∧
      (calculatePanels "bi-fold" "vertical" ⟨17/2, 11⟩).panels.map Panel.parentIndex
        = [none, none]) ∧
    ¬ ((calculatePanels "bi-fold" "vertical" ⟨17/2, 11⟩).panels.map Panel.foldDirection
        = [0, -1] ∧
      (calculatePanels "bi-fold" "vertical" ⟨17/2, 11⟩).panels.map Panel.parentIndex
        = [none, some 0]) := by
  simp [calculatePanels, calculateBiFold]

/-- C2 (amended): for every fold-axis length `L`, `calculateBiFold` returns
two panels of width `L/2`; panel 0 is the base at offset `0` with
`pivotEdge = right` and `foldDirection = 1`; panel 1 is at offset `L/2` with
`pivotEdge = left`, `foldDirection = -1`, and **no** `parentIndex`
(the mesh builder therefore treats it as a root).  Concretely,
`size = {8.5, 11}` vertical gives two panels of width `4.25`. -/
theorem calculateBiFold_layout (L h : ℚ) :
    (calculateBiFold L h).length = 2 ∧
    (calculateBiFold L h).map Panel.width = [L/2, L/2] ∧
    (calculateBiFold L h).map Panel.offsetX = [0, L/2] ∧
    (calculateBiFold L h).map Panel.pivotEdge = ["right", "left"] ∧
    (calculateBiFold L h).map Panel.foldDirection = [1, -1] ∧
    (calculateBiFold L h).map Panel.isBase = [true, false] ∧
    (calculateBiFold L h).map Panel.parentIndex = [none, none] ∧
    (calculatePanels "bi-fold" "vertical" ⟨17/2, 11⟩).panels.map Panel.width
      = [17/4, 17/4] := by
  refine ⟨rfl, rfl, rfl, rfl, rfl, rfl, rfl, ?_⟩
  simp [calculatePanels, calculateBiFold]
  norm_num

/-- C3: `calculatePanels` performs no dimension validation: for the
non-positive size `{0, 11}` it does **not** fail fast but returns a complete
`PanelConfig` with two zero-width panels (the spec requires rejection of
non-positive dimensions with no config produced). -/
theorem calculatePanels_nonpositive_returns_config :
    (calculatePanels "bi-fold" "vertical" ⟨0, 11⟩).panels.length = 2 ∧
    (calculatePanels "bi-fold" "vertical" ⟨0, 11⟩).panels.map Panel.width = [0, 0] ∧
    (calculatePanels "bi-fold" "vertical" ⟨0, 11⟩).totalWidth = 0 ∧
    (calculatePanels "bi-fold" "vertical" ⟨-1, 11⟩).panels.map Panel.width
      = [-(1/2), -(1/2)] := by
  refine ⟨rfl, ?_, rfl, ?_⟩ <;> simp [calculatePanels, calculateBiFold] <;> norm_num

/-- C7 (counterexample): for `tri-fold-roll` with `L = 12` the code's panel
widths are outer `4.05`, center `4.05`, inner `3.9` — the center panel is
not `≈ 3.9` (it is off by `0.15`), the inner panel is not `≈ 3.95`, and the
outer and inner deltas differ (`+0.05` versus `-0.1`), contradicting the
claimed symmetric `δ ≈ 0.1`. -/
theorem triFoldRoll_widths_counterexample :
    (calculateTriFoldRoll 12 9).map Panel.width = [81/20, 81/20, 39/10] ∧
    ¬ (|(81/20 : ℚ) - 39/10| ≤ 1/10) ∧
    ((81/20 : ℚ) - 12/3 = 1/20 ∧ (12 : ℚ)/3 - 39/10 = 1/10 ∧ (1/20 : ℚ) ≠ 1/10) := by
  refine ⟨?_, by norm_num [abs], by norm_num⟩
  simp [calculateTriFoldRoll]
  norm_num

/-- C7 (amended): for every fold-axis length `L`, `calculateTriFoldRoll`
gives outer panel `L/3 + 0.05`, center panel `L/3 + 0.05` (the exact
remainder), inner panel `L/3 - 0.1`; the widths sum exactly to `L`; for
`L = 12` they are `4.05`, `4.05`, `3.9`; and panel 2 (innermost) carries
`nestOffset = 0.02`. -/
theorem calculateTriFoldRoll_widths (L h : ℚ) :
    (calculateTriFoldRoll L h).map Panel.width
        = [L/3 + 1/20, L/3 + 1/20, L/3 - 1/10] ∧
    ((calculateTriFoldRoll L h).map Panel.width).sum = L ∧
    (calculateTriFoldRoll 12 9).map Panel.width = [81/20, 81/20, 39/10] ∧
    ((calculateTriFoldRoll L h).get? 2).bind Panel.nestOffset = some (1/50) := by
  refine ⟨?_, ?_, ?_, ?_⟩
  · simp [calculateTriFoldRoll]
    ring_nf
    try norm_num
  · simp [calculateTriFoldRoll]
    ring
  · simp [calculateTriFoldRoll]
    try norm_num
  · rfl

/-- C10: `setFoldProgress` stores the progress clamped to `[0, 1]`
(`max(0, min(1, p))`), a subsequent `getFoldProgress` returns exactly that
clamped value, and the externally readable progress is therefore always
within `[0, 1]`. -/
theorem setFoldProgress_clamps (sinPi : ℚ → ℚ) (ft orient : String) (p : ℚ)
    (s : AnimState) :
    getFoldProgress (setFoldProgress sinPi ft orient p s) = max 0 (min 1 p) ∧
    0 ≤ getFoldProgress (setFoldProgress sinPi ft orient p s) ∧
    getFoldProgress (setFoldProgress sinPi ft orient p s) ≤ 1 := by
  refine ⟨rfl, ?_, ?_⟩
  · exact le_max_left 0 _
  · exact max_le (by norm_num) (min_le_left 1 p)

/-- The panel list of the configuration `calculatePanels` builds. -/
def panelsOf (ft orient : String) (sz : Size) : List Panel :=
  (calculatePanels ft orient sz).panels

/-- The parent links of the configuration's panels, in panel order. -/
def parentsOf (ft orient : String) (sz : Size) : List (Option ℕ) :=
  (panelsOf ft orient sz).map Panel.parentIndex

/-- The base flags of the configuration's panels, in panel order. -/
def basesOf (ft orient : String) (sz : Size) : List Bool :=
  (panelsOf ft orient sz).map Panel.isBase

/-- `reachesBaseB parents bases i fuel` checks that following the parent
links from panel `i` reaches a panel marked base within `fuel` steps
(so in particular the chain from `i` is finite: no cycle through `i`). -/
def reachesBaseB (parents : List (Option ℕ)) (bases : List Bool) :
    ℕ → ℕ → Bool
  | _, 0 => false
  | i, fuel + 1 =>
    bases.getD i false ||
      (match parents.getD i none with
       | none => false
       | some j => reachesBaseB parents bases j fuel)

/-- `parentOkB parents i` checks that panel `i`'s parent link, when present,
references an existing panel other than `i` itself. -/
def parentOkB (parents : List (Option ℕ)) (i : ℕ) : Bool :=
  match parents.getD i none with
  | none => true
  | some j => decide (j < parents.length) && decide (j ≠ i)

/-- C5 (counterexample): in the gate-fold configuration the parent links
are `[some 1, none, some 1]` — panel 0's `parentIndex` is `1`, a panel
created **later** in fold order, so "every non-root panel's `parentIndex`
is strictly less than the panel's own index" fails at panel 0 of
`calculatePanels "gate-fold" "vertical" {11, 17}`. -/
theorem gateFold_forward_parent_counterexample :
    (calculatePanels "gate-fold" "vertical" ⟨11, 17⟩).panels.map Panel.parentIndex
        = [some 1, none, some 1] ∧
    ¬ (∀ i p j,
        (calculatePanels "gate-fold" "vertical" ⟨11, 17⟩).panels.get? i = some p →
        p.parentIndex = some j → j < i) := by
  constructor
  · simp [calculatePanels, calculateGateFold]
  · intro hforall
    have h0 := hforall 0 _ 1 rfl rfl
    exact absurd h0 (by decide)

/-- C5 (amended): for every fold type id and every size, each panel's
parent link (when present) references an existing panel other than itself,
and from every panel that has a parent link, following parent links reaches
a base panel within `panels.length` steps (the links are acyclic and form a
forest grounded in the base panels); exactly one panel is the base; and the
parentless panels are **exactly** the base panel — except in the bi-fold,
whose panel 1 carries no `parentIndex` either (the mesh builder treats it
as an extra root): a panel has no parent link if and only if it is the base
panel or bi-fold panel 1.  The claimed "no forward references" does **not**
hold: gate-fold panel 0 references the later-created base panel 1. -/
theorem parent_links_form_grounded_forest (ft orient : String) (w h : ℚ)
    (hft : ft = "bi-fold" ∨ ft = "tri-fold-z" ∨ ft = "tri-fold-roll" ∨ ft = "gate-fold") :
    (∀ i, i < (panelsOf ft orient ⟨w, h⟩).length →
        parentOkB (parentsOf ft orient ⟨w, h⟩) i = true ∧
        ((parentsOf ft orient ⟨w, h⟩).getD i none ≠ none →
          reachesBaseB (parentsOf ft orient ⟨w, h⟩) (basesOf ft orient ⟨w, h⟩)
            i (panelsOf ft orient ⟨w, h⟩).length = true)) ∧
    (basesOf ft orient ⟨w, h⟩).count true = 1 ∧
    (∀ i, i < (panelsOf ft orient ⟨w, h⟩).length →
        ((parentsOf ft orient ⟨w, h⟩).getD i none = none ↔
          ((basesOf ft orient ⟨w, h⟩).getD i false = true ∨
            (ft = "bi-fold" ∧ i = 1)))) := by
  rcases hft with h1 | h1 | h1 | h1 <;> subst h1 <;>
    simp only [panelsOf, parentsOf, basesOf, calculatePanels, calculateBiFold,
      calculateTriFoldZ, calculateTriFoldRoll, calculateGateFold,
      List.map_cons, List.map_nil, List.length_cons, List.length_nil,
      String.reduceEq, reduceIte] <;>
    decide

/-- Witness for C5's amended theorem at `ft = "gate-fold"`,
`orient = "vertical"`, `size = {11, 17}`. -/
theorem parent_links_form_grounded_forest_witness :
    ("gate-fold" = "bi-fold" ∨ "gate-fold" = "tri-fold-z" ∨
        "gate-fold" = "tri-fold-roll" ∨ "gate-fold" = "gate-fold") ∧
    ((∀ i, i < (panelsOf "gate-fold" "vertical" ⟨11, 17⟩).length →
         parentOkB (parentsOf "gate-fold" "vertical" ⟨11, 17⟩) i = true ∧
         ((parentsOf "gate-fold" "vertical" ⟨11, 17⟩).getD i none ≠ none →
           reachesBaseB (parentsOf "gate-fold" "vertical" ⟨11, 17⟩)
             (basesOf "gate-fold" "vertical" ⟨11, 17⟩) i
             (panelsOf "gate-fold" "vertical" ⟨11, 17⟩).length = true)) ∧
     (basesOf "gate-fold" "vertical" ⟨11, 17⟩).count true = 1 ∧
     (∀ i, i < (panelsOf "gate-fold" "vertical" ⟨11, 17⟩).length →
         ((parentsOf "gate-fold" "vertical" ⟨11, 17⟩).getD i none = none ↔
           ((basesOf "gate-fold" "vertical" ⟨11, 17⟩).getD i false = true ∨
             ("gate-fold" = "bi-fold" ∧ i = 1))))) :=
  ⟨Or.inr (Or.inr (Or.inr rfl)),
    parent_links_form_grounded_forest "gate-fold" "vertical" 11 17
      (Or.inr (Or.inr (Or.inr rfl)))⟩

/-- The back-face UV rectangle (`flipUVsHorizontally`) assigns to the
geometry corners exactly the horizontal mirror of the front-face
assignment. -/
theorem applyUVs_flip_mirror (uv : UVRect) :
    applyUVs (flipUVsHorizontally uv) = mirrorCornersLR (applyUVs uv) := rfl

/-- The fold-axis intervals of all panels' front-face UV rectangles, in
panel order. -/
def foldAxisIntervals (ft orient : String) (sz : Size) : List (ℚ × ℚ) :=
  (calculatePanels ft orient sz).panels.map
    (foldAxisInterval (calculatePanels ft orient sz))

/-- C6: for every fold type id, orientation, and positive size, the
front-face UV rectangles computed by `calculatePanelUVs` tile `[0, 1]`
exactly along the fold axis (the first interval starts at `0`, consecutive
intervals abut, the last ends at `1`), cover the complementary axis fully
(`0 → 1`), and each panel's back-face UVs (`flipUVsHorizontally`) assign to
the geometry corners exactly the horizontal mirror of the front-face corner
assignment. -/
theorem uv_rectangles_tile_and_mirror (ft orient : String) (w h : ℚ)
    (hft : ft = "bi-fold" ∨ ft = "tri-fold-z" ∨ ft = "tri-fold-roll" ∨ ft = "gate-fold")
    (horient : orient = "vertical" ∨ orient = "horizontal")
    (hw : 0 < w) (hh : 0 < h) :
    tilesFrom 0 (foldAxisIntervals ft orient ⟨w, h⟩) ∧
    (∀ p ∈ panelsOf ft orient ⟨w, h⟩,
        ((calculatePanels ft orient ⟨w, h⟩).isVertical = true →
          (calculatePanelUVs p (calculatePanels ft orient ⟨w, h⟩)).vStart = 0 ∧
          (calculatePanelUVs p (calculatePanels ft orient ⟨w, h⟩)).vEnd = 1) ∧
        ((calculatePanels ft orient ⟨w, h⟩).isVertical = false →
          (calculatePanelUVs p (calculatePanels ft orient ⟨w, h⟩)).uStart = 0 ∧
          (calculatePanelUVs p (calculatePanels ft orient ⟨w, h⟩)).uEnd = 1)) ∧
    (∀ p ∈ panelsOf ft orient ⟨w, h⟩,
        applyUVs (flipUVsHorizontally
            (calculatePanelUVs p (calculatePanels ft orient ⟨w, h⟩))) =
          mirrorCornersLR
            (applyUVs (calculatePanelUVs p (calculatePanels ft orient ⟨w, h⟩)))) := by
  have hw' : w ≠ 0 := ne_of_gt hw
  have hh' : h ≠ 0 := ne_of_gt hh
  rcases hft with h1 | h1 | h1 | h1 <;> subst h1 <;>
    rcases horient with ho | ho <;> subst ho <;>
    refine ⟨?_, ?_, fun p _ => applyUVs_flip_mirror _⟩ <;>
    simp [panelsOf, foldAxisIntervals, calculatePanels, calculateBiFold,
      calculateTriFoldZ, calculateTriFoldRoll, calculateGateFold,
      calculatePanelUVs, foldAxisInterval, tilesFrom]
  all_goals (repeat' apply And.intro)
  all_goals try rfl
  all_goals try trivial
  all_goals try field_simp
  all_goals try ring

/-- Witness for C6 at `ft = "bi-fold"`, `orient = "vertical"`,
`size = {9, 11}`. -/
theorem uv_rectangles_tile_and_mirror_witness :
    ("bi-fold" = "bi-fold" ∨ "bi-fold" = "tri-fold-z" ∨
        "bi-fold" = "tri-fold-roll" ∨ "bi-fold" = "gate-fold") ∧
    ("vertical" = "vertical" ∨ "vertical" = "horizontal") ∧
    (0 : ℚ) < 9 ∧ (0 : ℚ) < 11 ∧
    (tilesFrom 0 (foldAxisIntervals "bi-fold" "vertical" ⟨9, 11⟩) ∧
     (∀ p ∈ panelsOf "bi-fold" "vertical" ⟨9, 11⟩,
         ((calculatePanels "bi-fold" "vertical" ⟨9, 11⟩).isVertical = true →
           (calculatePanelUVs p (calculatePanels "bi-fold" "vertical" ⟨9, 11⟩)).vStart = 0 ∧
           (calculatePanelUVs p (calculatePanels "bi-fold" "vertical" ⟨9, 11⟩)).vEnd = 1) ∧
         ((calculatePanels "bi-fold" "vertical" ⟨9, 11⟩).isVertical = false →
           (calculatePanelUVs p (calculatePanels "bi-fold" "vertical" ⟨9, 11⟩)).uStart = 0 ∧
           (calculatePanelUVs p (calculatePanels "bi-fold" "vertical" ⟨9, 11⟩)).uEnd = 1)) ∧
     (∀ p ∈ panelsOf "bi-fold" "vertical" ⟨9, 11⟩,
         applyUVs (flipUVsHorizontally
             (calculatePanelUVs p (calculatePanels "bi-fold" "vertical" ⟨9, 11⟩))) =
           mirrorCornersLR
             (applyUVs (calculatePanelUVs p (calculatePanels "bi-fold" "vertical" ⟨9, 11⟩))))) :=
  ⟨Or.inl rfl, Or.inl rfl, by decide, by decide,
    uv_rectangles_tile_and_mirror "bi-fold" "vertical" 9 11
      (Or.inl rfl) (Or.inl rfl) (by decide) (by decide)⟩

/-- `easeInOutCubic 1 = 1`. -/
theorem easeInOutCubic_one : easeInOutCubic 1 = 1 := by
  norm_num [easeInOutCubic]

/-- The easing function stays strictly below `1` on `[0, 1)`. -/
theorem easeInOutCubic_lt_one {t : ℚ} (h0 : 0 ≤ t) (h1 : t < 1) :
    easeInOutCubic t < 1 := by
  unfold easeInOutCubic
  split_ifs with h
  · have h2 : t * t < 1/4 := by nlinarith
    have h3 : t * t * t ≤ (1/4) * t :=
      mul_le_mul_of_nonneg_right (le_of_lt h2) h0
    nlinarith
  · have h2 : 0 < -2 * t + 2 := by linarith
    have h3 : 0 < (-2 * t + 2) ^ 3 := pow_pos h2 3
    linarith

/-- C4 (counterexample): at `progress = 1` on the bi-fold (vertical),
panel 1 has `foldDirection = -1`, yet the code sets its hinge rotation to
`+easeInOutCubic(0.8)·π = +(121/125)·π`, not the claimed
`foldDirection`-signed `-(121/125)·π` (rotations stored in units of π). -/
theorem fullFold_angle_sign_counterexample :
    ((calculatePanels "bi-fold" "vertical" ⟨17/2, 11⟩).panels.get? 1).map
        Panel.foldDirection = some (-1) ∧
    easeInOutCubic ((1 : ℚ) * MAX_FOLD_PROGRESS) = 121/125 ∧
    ((applyFoldProgress (fun _ => 0) "bi-fold" "vertical" 1
        [{}, {}]).get? 1).map Pivot.roty = some (121/125) ∧
    ((121 : ℚ)/125) ≠ (-1 : ℚ) * (121/125) := by
  refine ⟨?_, ?_, ?_, by norm_num⟩
  · simp [calculatePanels, calculateBiFold]
  · norm_num [easeInOutCubic, MAX_FOLD_PROGRESS]
  · norm_num [applyFoldProgress, applyBiFold, easeInOutCubic,
      MAX_FOLD_PROGRESS, PANEL_Z_OFFSET]
    simp

/-- C4 (amended): at `progress = 1` the capped, eased progress is
`easeInOutCubic(0.8) = 121/125`, and each active hinge's rotation (in units
of π; about Y for vertical, about X for horizontal, bi-fold horizontal on
top of the `π/2` base rotation) has magnitude `easeInOutCubic(0.8)·π` for
bi-fold, tri-fold-z and gate-fold — but the sign is fixed by the per-type
animation code, **not** by `foldDirection` (bi-fold panel 1 and gate-fold
panel 2 rotate positively despite `foldDirection = -1`) — while
tri-fold-roll re-stages and re-eases the already-eased progress, leaving
its hinges at `-π` (panel 2) and `-easeInOutCubic(24/25)·π =
-(15621/15625)·π` (panel 1) instead of `easeInOutCubic(0.8)·π`. -/
theorem applyFoldProgress_at_full_fold (s : ℚ → ℚ) (m0 m1 m2 : Pivot)
    (rest : List Pivot) :
    easeInOutCubic ((1 : ℚ) * MAX_FOLD_PROGRESS) = 121/125 ∧
    ((applyFoldProgress s "bi-fold" "vertical" 1 (m0 :: m1 :: m2 :: rest)).get? 1).map
        Pivot.roty = some (121/125) ∧
    ((applyFoldProgress s "bi-fold" "horizontal" 1 (m0 :: m1 :: m2 :: rest)).get? 1).map
        Pivot.rotx = some (1/2 + 121/125) ∧
    ((applyFoldProgress s "tri-fold-z" "vertical" 1 (m0 :: m1 :: m2 :: rest)).get? 1).map
        Pivot.roty = some (-(121/125)) ∧
    ((applyFoldProgress s "tri-fold-z" "vertical" 1 (m0 :: m1 :: m2 :: rest)).get? 2).map
        Pivot.roty = some (121/125) ∧
    ((applyFoldProgress s "tri-fold-z" "horizontal" 1 (m0 :: m1 :: m2 :: rest)).get? 1).map
        Pivot.rotx = some (-(121/125)) ∧
    ((applyFoldProgress s "tri-fold-z" "horizontal" 1 (m0 :: m1 :: m2 :: rest)).get? 2).map
        Pivot.rotx = some (121/125) ∧
    ((applyFoldProgress s "gate-fold" "vertical" 1 (m0 :: m1 :: m2 :: rest)).get? 0).map
        Pivot.roty = some (-(121/125)) ∧
    ((applyFoldProgress s "gate-fold" "vertical" 1 (m0 :: m1 :: m2 :: rest)).get? 2).map
        Pivot.roty = some (121/125) ∧
    ((applyFoldProgress s "gate-fold" "horizontal" 1 (m0 :: m1 :: m2 :: rest)).get? 0).map
        Pivot.rotx = some (-(121/125)) ∧
    ((applyFoldProgress s "gate-fold" "horizontal" 1 (m0 :: m1 :: m2 :: rest)).get? 2).map
        Pivot.rotx = some (121/125) ∧
    ((applyFoldProgress s "tri-fold-roll" "vertical" 1 (m0 :: m1 :: m2 :: rest)).get? 2).map
        Pivot.roty = some (-1) ∧
    ((applyFoldProgress s "tri-fold-roll" "vertical" 1 (m0 :: m1 :: m2 :: rest)).get? 1).map
        Pivot.roty = some (-(15621/15625)) ∧
    easeInOutCubic (24/25) = 15621/15625 := by
  refine ⟨by norm_num [easeInOutCubic, MAX_FOLD_PROGRESS], ?_, ?_, ?_, ?_, ?_,
    ?_, ?_, ?_, ?_, ?_, ?_, ?_, by norm_num [easeInOutCubic]⟩ <;>
    (norm_num [applyFoldProgress, applyBiFold, applyTriFoldZ, applyTriFoldRoll,
      applyGateFold, easeInOutCubic, MAX_FOLD_PROGRESS, PANEL_Z_OFFSET,
      BASE_ROTATION_X, min_def, max_def]
     try simp
     try norm_num)

/-- C8: for every progress value `p ∈ [0, 1]` given to `applyTriFoldRoll`,
the innermost panel (index 2) is driven by local progress
`min(1, p/0.8)` and the center panel (index 1) by
`max(0, (p - 0.2)/0.8)`, each independently passed through
`easeInOutCubic` before becoming the hinge rotation (in units of π, about Y
for vertical and X for horizontal); the inner panel completes its rotation
strictly before the outer finishes: its eased local progress is already `1`
for every `p ≥ 0.8`, while the center panel's stays strictly below `1` for
every `p < 1`. -/
theorem applyTriFoldRoll_staged_progress (p : ℚ) (m0 m1 m2 : Pivot)
    (rest : List Pivot) (hp0 : 0 ≤ p) (hp1 : p ≤ 1) :
    ((applyTriFoldRoll (m0 :: m1 :: m2 :: rest) p true).get? 2).map Pivot.roty
        = some (-(easeInOutCubic (min 1 (p / (4/5))))) ∧
    ((applyTriFoldRoll (m0 :: m1 :: m2 :: rest) p true).get? 1).map Pivot.roty
        = some (-(easeInOutCubic (max 0 ((p - 1/5) / (4/5))))) ∧
    ((applyTriFoldRoll (m0 :: m1 :: m2 :: rest) p false).get? 2).map Pivot.rotx
        = some (-(easeInOutCubic (min 1 (p / (4/5))))) ∧
    ((applyTriFoldRoll (m0 :: m1 :: m2 :: rest) p false).get? 1).map Pivot.rotx
        = some (-(easeInOutCubic (max 0 ((p - 1/5) / (4/5))))) ∧
    (4/5 ≤ p → easeInOutCubic (min 1 (p / (4/5))) = 1) ∧
    (p < 1 → easeInOutCubic (max 0 ((p - 1/5) / (4/5))) < 1) := by
  refine ⟨by simp [applyTriFoldRoll], by simp [applyTriFoldRoll],
    by simp [applyTriFoldRoll], by simp [applyTriFoldRoll], ?_, ?_⟩
  · intro hp
    have h1 : (1 : ℚ) ≤ p / (4/5) := by
      rw [le_div_iff (by norm_num : (0:ℚ) < 4/5)]
      linarith
    rw [min_eq_left h1]
    exact easeInOutCubic_one
  · intro hp
    have h1 : (p - 1/5) / (4/5) < 1 := by
      rw [div_lt_one (by norm_num : (0:ℚ) < 4/5)]
      linarith
    exact easeInOutCubic_lt_one (le_max_left 0 _) (max_lt (by norm_num) h1)

/-- Witness for C8 at `p = 1` with default pivots. -/
theorem applyTriFoldRoll_staged_progress_witness :
    (0 : ℚ) ≤ 1 ∧ (1 : ℚ) ≤ 1 ∧
    (((applyTriFoldRoll [{}, {}, {}] 1 true).get? 2).map Pivot.roty
        = some (-(easeInOutCubic (min 1 ((1 : ℚ) / (4/5))))) ∧
    ((applyTriFoldRoll [{}, {}, {}] 1 true).get? 1).map Pivot.roty
        = some (-(easeInOutCubic (max 0 (((1 : ℚ) - 1/5) / (4/5))))) ∧
    ((applyTriFoldRoll [{}, {}, {}] 1 false).get? 2).map Pivot.rotx
        = some (-(easeInOutCubic (min 1 ((1 : ℚ) / (4/5))))) ∧
    ((applyTriFoldRoll [{}, {}, {}] 1 false).get? 1).map Pivot.rotx
        = some (-(easeInOutCubic (max 0 (((1 : ℚ) - 1/5) / (4/5))))) ∧
    ((4 : ℚ)/5 ≤ 1 → easeInOutCubic (min 1 ((1 : ℚ) / (4/5))) = 1) ∧
    ((1 : ℚ) < 1 → easeInOutCubic (max 0 (((1 : ℚ) - 1/5) / (4/5))) < 1)) :=
  ⟨by decide, by decide,
    applyTriFoldRoll_staged_progress 1 {} {} {} [] (by decide) (by decide)⟩

/-- C9: applying the same fold progress twice in succession leaves every
pivot's rotation and position fields exactly as after applying it once —
`applyFoldProgress` is idempotent for every fold type, orientation,
progress value, interpretation of `sin`, and mesh list. -/
theorem applyFoldProgress_idempotent (sinPi : ℚ → ℚ) (ft orient : String)
    (p : ℚ) (ms : List Pivot) :
    applyFoldProgress sinPi ft orient p (applyFoldProgress sinPi ft orient p ms)
      = applyFoldProgress sinPi ft orient p ms := by
  rcases ms with _ | ⟨a, _ | ⟨b, _ | ⟨c, r⟩⟩⟩ <;>
    try rfl
  all_goals
    cases hD : decide (orient = "vertical") <;>
    by_cases h1 : ft = "bi-fold" <;>
    by_cases h2 : ft = "tri-fold-z" <;>
    by_cases h3 : ft = "tri-fold-roll" <;>
    by_cases h4 : ft = "gate-fold" <;>
    simp [applyFoldProgress, applyBiFold, applyTriFoldZ, applyTriFoldRoll,
      applyGateFold, h1, h2, h3, h4, hD]

end Foldproof
